import Mathlib

/-!
Verification of `stutil`'s stdout/stderr redirection module
(`src/stutil/logger.py`): the module-level singleton `_stream`, the
functions `open_redirect_std_stream`, `close_redirect_std_stream`, the
context manager `redirect_stds`, and the class `RedirectStdStream`
(`__init__`, `write`, `flush`, `close`).

The Python code is embedded shallowly as pure functions over an explicit
`World` state holding the process-wide stream targets (`sys.stdout`,
`sys.stderr`), the module-level singleton slot, the allocated
`RedirectStdStream` instances, the open file handles with their write
buffers, and a file system mapping paths to contents.  Each operation also
returns the list of observable I/O events it performs, so that claims about
"no write happens" or "the flush comes first" are directly statable.
Fallible operations (file open) return `Except`, carrying the world at the
moment of failure; operations whose Python counterpart can raise at
runtime (write to a closed handle, unbounded recursion through stacked
streams) return `Option`, with `none` for the raising case.
-/

namespace Stutil

/-- A process-wide stream target: the original stdout, the original stderr,
or a `RedirectStdStream` instance (identified by its allocation index). -/
inductive Target where
  | origOut : Target
  | origErr : Target
  | inst : Nat → Target
deriving DecidableEq, Repr

/-- File modes used by the module: `'a'` (append) and `'w'` (truncate). -/
inductive FileMode where
  | append : FileMode
  | write : FileMode
deriving DecidableEq, Repr

/-- An open file handle: its path, mode, unflushed write buffer, and
whether it is still open. -/
structure Handle where
  path : String
  mode : FileMode
  buf : String
  isOpen : Bool
deriving DecidableEq, Repr

/-- The fields of a `RedirectStdStream` object: `self.file` (a handle
index, `none` once closed or when no file was requested),
`self.should_flush`, and the captured `self.stdout` / `self.stderr`. -/
structure Inst where
  file : Option Nat
  should_flush : Bool
  stdout : Target
  stderr : Target
deriving DecidableEq, Repr

/-- Observable I/O events: writes/flushes/closes on file handles, and
writes/flushes forwarded to an original (non-instance) stream target. -/
inductive Event where
  | fileOpen : String → FileMode → Event
  | fileWrite : Nat → String → Event
  | fileFlush : Nat → Event
  | fileClose : Nat → Event
  | stdWrite : Target → String → Event
  | stdFlush : Target → Event
deriving DecidableEq, Repr

/-- The process state: `sys.stdout`, `sys.stderr`, the module-level
singleton slot `_stream` (an instance index), the allocated instances
(indexed by position), the file handles (indexed by position), the file
system (path-to-contents association list), and the set of paths whose
`open` fails with an I/O error. -/
structure World where
  sysStdout : Target
  sysStderr : Target
  stream : Option Nat
  insts : List Inst
  handles : List Handle
  fs : List (String × String)
  badPaths : List String
deriving DecidableEq, Repr

/-- The only error kind these operations surface: an I/O error from
opening a file. -/
inductive PyErr where
  | ioError : PyErr
deriving DecidableEq, Repr

/-- Look up a path in the file-system association list. -/
def fsGet (fs : List (String × String)) (p : String) : Option String :=
  (fs.find? (fun e => e.1 = p)).map (fun e => e.2)

/-- Store contents for a path, replacing an existing entry or appending. -/
def fsSet (fs : List (String × String)) (p s : String) : List (String × String) :=
  if (fs.find? (fun e => e.1 = p)).isSome then
    fs.map (fun e => if e.1 = p then (p, s) else e)
  else
    fs ++ [(p, s)]

/-- Whether a byte is a UTF-8 continuation byte (`0x80`–`0xBF`). -/
def isCont (b : Nat) : Bool := 0x80 ≤ b && b ≤ 0xBF

/-- Strict UTF-8 decoding of a byte list, as performed by Python's
`bytes.decode()`: rejects truncated sequences, overlong encodings,
surrogates, and code points above `0x10FFFF`. -/
def utf8Decode : List Nat → Option (List Char)
  | [] => some []
  | b :: rest =>
    if b ≤ 0x7F then
      (utf8Decode rest).map (fun cs => Char.ofNat b :: cs)
    else if 0xC2 ≤ b && b ≤ 0xDF then
      match rest with
      | c :: rest2 =>
        if isCont c then
          (utf8Decode rest2).map
            (fun cs => Char.ofNat ((b - 0xC0) * 0x40 + (c - 0x80)) :: cs)
        else none
      | _ => none
    else if 0xE0 ≤ b && b ≤ 0xEF then
      match rest with
      | c :: d :: rest2 =>
        let okSecond : Bool :=
          if b = 0xE0 then 0xA0 ≤ c && c ≤ 0xBF
          else if b = 0xED then 0x80 ≤ c && c ≤ 0x9F
          else isCont c
        if okSecond && isCont d then
          (utf8Decode rest2).map
            (fun cs =>
              Char.ofNat ((b - 0xE0) * 0x1000 + (c - 0x80) * 0x40 + (d - 0x80)) :: cs)
        else none
      | _ => none
    else if 0xF0 ≤ b && b ≤ 0xF4 then
      match rest with
      | c :: d :: e :: rest2 =>
        let okSecond : Bool :=
          if b = 0xF0 then 0x90 ≤ c && c ≤ 0xBF
          else if b = 0xF4 then 0x80 ≤ c && c ≤ 0x8F
          else isCont c
        if okSecond && isCont d && isCont e then
          (utf8Decode rest2).map
            (fun cs =>
              Char.ofNat
                ((b - 0xF0) * 0x40000 + (c - 0x80) * 0x1000 +
                  (d - 0x80) * 0x40 + (e - 0x80)) :: cs)
        else none
      | _ => none
    else none

/-- A dynamically typed argument to `RedirectStdStream.write`: either a
`str` or a `bytes` value. -/
inductive PyText where
  | str : String → PyText
  | bytes : List Nat → PyText
deriving DecidableEq, Repr

/-- The `isinstance(text, bytes): text = text.decode()` step of `write`:
`str` passes through; `bytes` is strictly UTF-8 decoded (raising, i.e.
`none`, on invalid bytes). -/
def decodePy : PyText → Option String
  | .str s => some s
  | .bytes bs => (utf8Decode bs).map List.asString

/-- `open(file_name, file_mode)`: fails with an I/O error on a bad path
(leaving the world untouched); otherwise allocates a fresh handle, with
`'w'` truncating (or creating) the file and `'a'` creating it only if
absent. -/
def openFile (w : World) (p : String) (m : FileMode) :
    Except (World × PyErr) (World × Nat × List Event) :=
  if p ∈ w.badPaths then .error (w, .ioError)
  else
    let fs1 :=
      match m with
      | .write => fsSet w.fs p ""
      | .append =>
        match fsGet w.fs p with
        | none => fsSet w.fs p ""
        | some _ => w.fs
    .ok ({ w with fs := fs1, handles := w.handles ++ [⟨p, m, "", true⟩] },
      w.handles.length, [.fileOpen p m])

/-- `file.write(text)`: appends to the handle's buffer; raises (`none`) if
the handle does not exist or is closed. -/
def fileWrite (w : World) (h : Nat) (text : String) : Option (World × List Event) := do
  let hd ← w.handles[h]?
  if hd.isOpen then
    some ({ w with handles := w.handles.set h { hd with buf := hd.buf ++ text } },
      [.fileWrite h text])
  else none

/-- `file.flush()`: moves the handle's buffer into the file system; raises
(`none`) if the handle does not exist or is closed. -/
def fileFlush (w : World) (h : Nat) : Option (World × List Event) := do
  let hd ← w.handles[h]?
  if hd.isOpen then
    some ({ w with
        fs := fsSet w.fs hd.path ((fsGet w.fs hd.path).getD "" ++ hd.buf),
        handles := w.handles.set h { hd with buf := "" } },
      [.fileFlush h])
  else none

/-- `file.close()`: flushes the remaining buffer and marks the handle
closed; closing an already-closed handle is a no-op, as in Python. -/
def fileClose (w : World) (h : Nat) : Option (World × List Event) := do
  let hd ← w.handles[h]?
  if hd.isOpen then
    some ({ w with
        fs := fsSet w.fs hd.path ((fsGet w.fs hd.path).getD "" ++ hd.buf),
        handles := w.handles.set h { hd with buf := "", isOpen := false } },
      [.fileClose h])
  else some (w, [])

/-- `RedirectStdStream.flush`: flush the file if `self.file` is open, then
flush `self.stdout`.  When the captured `self.stdout` is itself a
`RedirectStdStream` (stacked instances), its `flush` method runs
recursively; `fuel` bounds that recursion depth (`none` models Python's
`RecursionError` when it runs out, which never happens in this module's
intended use). -/
def instFlush : Nat → World → Nat → Option (World × List Event)
  | 0, w, id => do
    let inst ← w.insts[id]?
    let (w1, evs1) ←
      match inst.file with
      | some h => fileFlush w h
      | none => some (w, ([] : List Event))
    match inst.stdout with
    | .origOut => some (w1, evs1 ++ [.stdFlush .origOut])
    | .origErr => some (w1, evs1 ++ [.stdFlush .origErr])
    | .inst _ => none
  | f + 1, w, id => do
    let inst ← w.insts[id]?
    let (w1, evs1) ←
      match inst.file with
      | some h => fileFlush w h
      | none => some (w, ([] : List Event))
    match inst.stdout with
    | .origOut => some (w1, evs1 ++ [.stdFlush .origOut])
    | .origErr => some (w1, evs1 ++ [.stdFlush .origErr])
    | .inst j => do
      let (w2, evs2) ← instFlush f w1 j
      some (w2, evs1 ++ evs2)

/-- `RedirectStdStream.write`: decode `bytes` to `str`; return immediately
on empty text; otherwise write to the file (if any), then forward to the
captured `self.stdout`, then `self.flush()` when `self.should_flush`.
A forwarding target that is itself an instance runs that instance's
`write` recursively (`fuel` as in `instFlush`). -/
def instWrite : Nat → World → Nat → PyText → Option (World × List Event)
  | 0, w, id, t => do
    let inst ← w.insts[id]?
    let text ← decodePy t
    if text = "" then some (w, ([] : List Event))
    else do
      let (w1, evs1) ←
        match inst.file with
        | some h => fileWrite w h text
        | none => some (w, ([] : List Event))
      let (w2, evs2) ←
        match inst.stdout with
        | .origOut => some (w1, [Event.stdWrite .origOut text])
        | .origErr => some (w1, [Event.stdWrite .origErr text])
        | .inst _ => none
      if inst.should_flush then do
        let (w3, evs3) ← instFlush 0 w2 id
        some (w3, evs1 ++ evs2 ++ evs3)
      else some (w2, evs1 ++ evs2)
  | f + 1, w, id, t => do
    let inst ← w.insts[id]?
    let text ← decodePy t
    if text = "" then some (w, ([] : List Event))
    else do
      let (w1, evs1) ←
        match inst.file with
        | some h => fileWrite w h text
        | none => some (w, ([] : List Event))
      let (w2, evs2) ←
        match inst.stdout with
        | .origOut => some (w1, [Event.stdWrite .origOut text])
        | .origErr => some (w1, [Event.stdWrite .origErr text])
        | .inst j => instWrite f w1 j (.str text)
      if inst.should_flush then do
        let (w3, evs3) ← instFlush (f + 1) w2 id
        some (w3, evs1 ++ evs2 ++ evs3)
      else some (w2, evs1 ++ evs2)

/-- `RedirectStdStream.close`: `self.flush()`; restore `sys.stdout`
(resp. `sys.stderr`) to the captured target only if it still points at
this instance; close `self.file` if open and clear the reference. -/
def instClose (fuel : Nat) (w : World) (id : Nat) : Option (World × List Event) := do
  let inst ← w.insts[id]?
  let (w1, evs1) ← instFlush fuel w id
  let w2 := if w1.sysStdout = .inst id then { w1 with sysStdout := inst.stdout } else w1
  let w3 := if w2.sysStderr = .inst id then { w2 with sysStderr := inst.stderr } else w2
  match inst.file with
  | some h => do
    let (w4, evs4) ← fileClose w3 h
    some ({ w4 with insts := w4.insts.set id { inst with file := none } }, evs1 ++ evs4)
  | none => some (w3, evs1)

/-- `RedirectStdStream.__init__`: `self.file = None`; open the file first
when a name is given (an I/O error propagates before any global mutation);
then capture the current `sys.stdout` / `sys.stderr` and install the new
instance as both. -/
def «RedirectStdStream.init» (w : World) (file_name : Option String)
    (file_mode : FileMode) (should_flush : Bool) :
    Except (World × PyErr) (World × Nat × List Event) :=
  match file_name with
  | none =>
    .ok ({ w with
        insts := w.insts ++ [⟨none, should_flush, w.sysStdout, w.sysStderr⟩],
        sysStdout := .inst w.insts.length,
        sysStderr := .inst w.insts.length }, w.insts.length, [])
  | some p =>
    match openFile w p file_mode with
    | .error e => .error e
    | .ok (w1, hid, evs) =>
      .ok ({ w1 with
          insts := w1.insts ++ [⟨some hid, should_flush, w1.sysStdout, w1.sysStderr⟩],
          sysStdout := .inst w1.insts.length,
          sysStderr := .inst w1.insts.length }, w1.insts.length, evs)

/-- `open_redirect_std_stream`: create a `RedirectStdStream` and store it
in the module-level `_stream` slot, unless one is already active, in which
case return the existing instance unchanged. -/
def open_redirect_std_stream (w : World) (filename : Option String)
    (mode : FileMode) : Except (World × PyErr) (World × Nat × List Event) :=
  match w.stream with
  | some id => .ok (w, id, [])
  | none =>
    match «RedirectStdStream.init» w filename mode true with
    | .error e => .error e
    | .ok (w1, id, evs) => .ok ({ w1 with stream := some id }, id, evs)

/-- `close_redirect_std_stream`: close the slotted instance if any, then
clear the `_stream` slot. -/
def close_redirect_std_stream (fuel : Nat) (w : World) : Option (World × List Event) :=
  match w.stream with
  | some id => do
    let (w1, evs) ← instClose fuel w id
    some ({ w1 with stream := none }, evs)
  | none => some ({ w with stream := none }, [])

/-- How the block wrapped by `redirect_stds` exits: normally, or by
raising an exception. -/
inductive BodyExit where
  | normal : BodyExit
  | exn : BodyExit
deriving DecidableEq, Repr

/-- `redirect_stds`: the `@contextmanager` generator
`open_redirect_std_stream(...); yield; close_redirect_std_stream()`.
With no `try`/`finally` around the `yield`, an exception raised by the
block is thrown into the generator at the `yield` and propagates, so the
code after the `yield` — the close — never runs in that case; the close
runs only on normal completion of the block. -/
def redirect_stds (fuel : Nat) (w : World) (filename : Option String)
    (mode : FileMode) (body : World → World × BodyExit) :
    Option (Except (World × PyErr) (World × BodyExit)) :=
  match open_redirect_std_stream w filename mode with
  | .error e => some (.error e)
  | .ok (w1, _, _) =>
    let (w2, ex) := body w1
    match ex with
    | .normal =>
      match close_redirect_std_stream fuel w2 with
      | some (w3, _) => some (.ok (w3, .normal))
      | none => none
    | .exn => some (.ok (w2, .exn))

/-- The initial process state: original stdout/stderr installed, no active
stream, no instances, no handles, an empty file system, and every path
openable. -/
def freshWorld : World := ⟨.origOut, .origErr, none, [], [], [], []⟩

/-- The state right after `open_redirect_std_stream(freshWorld, "log.txt",
'w')`: the new instance is installed as both targets and slotted, its file
handle is open, and the file has been truncated to empty. -/
def openW : World :=
  ⟨.inst 0, .inst 0, some 0, [⟨some 0, true, .origOut, .origErr⟩],
    [⟨"log.txt", .write, "", true⟩], [("log.txt", "")], []⟩

/-- The state of `openW` after closing the instance: targets restored,
slot cleared, the instance's file reference cleared, the handle closed. -/
def closedW : World :=
  ⟨.origOut, .origErr, none, [⟨none, true, .origOut, .origErr⟩],
    [⟨"log.txt", .write, "", false⟩], [("log.txt", "")], []⟩

/-- A fresh world in which opening the path `"bad"` fails with an I/O
error. -/
def badW : World := ⟨.origOut, .origErr, none, [], [], [], ["bad"]⟩

/-- The spec's round trip: open the redirecting stream on a fresh world in
write mode, write `"a"`, write `"b"`, close; return the final contents of
the log file. -/
def roundTripFile : Option String :=
  match open_redirect_std_stream freshWorld (some "log.txt") .write with
  | .error _ => none
  | .ok (w1, id, _) => do
    let (w2, _) ← instWrite 1 w1 id (.str "a")
    let (w3, _) ← instWrite 1 w2 id (.str "b")
    let (w4, _) ← close_redirect_std_stream 1 w3
    fsGet w4.fs "log.txt"

/-- Running `redirect_stds` over a fresh world with a block that exits as
`ex`, without touching the world in the block. -/
def runRedirect (ex : BodyExit) : Option (Except (World × PyErr) (World × BodyExit)) :=
  redirect_stds 1 freshWorld (some "log.txt") .write (fun w => (w, ex))

/-- Equality of `Except` results is decidable when both components are,
so concrete runs of the fallible operations can be checked by evaluation. -/
instance {ε α : Type} [DecidableEq ε] [DecidableEq α] :
    DecidableEq (Except ε α) := fun x y =>
  match x, y with
  | .error a, .error b =>
    if h : a = b then isTrue (congrArg Except.error h)
    else isFalse (fun hc => h (by injection hc))
  | .error _, .ok _ => isFalse (fun hc => Except.noConfusion hc)
  | .ok _, .error _ => isFalse (fun hc => Except.noConfusion hc)
  | .ok a, .ok b =>
    if h : a = b then isTrue (congrArg Except.ok h)
    else isFalse (fun hc => h (by injection hc))

/-- `file.flush()` only moves buffered data: the stream targets, the
singleton slot, the instance table, the number of handles and the bad-path
set are untouched. -/
theorem fileFlush_preserves (w : World) (h : Nat) (w' : World) (evs : List Event)
    (hff : fileFlush w h = some (w', evs)) :
    w'.sysStdout = w.sysStdout ∧ w'.sysStderr = w.sysStderr ∧ w'.insts = w.insts ∧
    w'.stream = w.stream ∧ w'.handles.length = w.handles.length ∧
    w'.badPaths = w.badPaths := by
  unfold fileFlush at hff
  cases hh : w.handles[h]? with
  | none => simp [hh] at hff
  | some hd =>
    cases hop : hd.isOpen with
    | false => simp [hh, hop] at hff
    | true =>
      simp only [hh, hop, Option.bind_eq_bind, Option.some_bind, if_true,
        Option.some.injEq, Prod.mk.injEq] at hff
      obtain ⟨hw, -⟩ := hff
      subst hw
      simp [List.length_set]

/-- `RedirectStdStream.flush` (at any recursion depth) never touches the
global stream targets, the singleton slot, the instance table, the number
of handles, or the bad-path set. -/
theorem instFlush_preserves :
    ∀ fuel w id w' evs, instFlush fuel w id = some (w', evs) →
      w'.sysStdout = w.sysStdout ∧ w'.sysStderr = w.sysStderr ∧ w'.insts = w.insts ∧
      w'.stream = w.stream ∧ w'.handles.length = w.handles.length ∧
      w'.badPaths = w.badPaths := by
  intro fuel
  induction fuel with
  | zero =>
    intro w id w' evs h
    rw [instFlush] at h
    cases hinst : w.insts[id]? with
    | none => simp [hinst] at h
    | some inst =>
      simp only [hinst, Option.bind_eq_bind, Option.some_bind] at h
      cases hfile : inst.file with
      | none =>
        simp only [hfile] at h
        cases hstd : inst.stdout with
        | origOut =>
          simp only [hstd, Option.bind_eq_bind, Option.some_bind,
            Option.some.injEq, Prod.mk.injEq] at h
          obtain ⟨hw, -⟩ := h
          subst hw
          exact ⟨rfl, rfl, rfl, rfl, rfl, rfl⟩
        | origErr =>
          simp only [hstd, Option.bind_eq_bind, Option.some_bind,
            Option.some.injEq, Prod.mk.injEq] at h
          obtain ⟨hw, -⟩ := h
          subst hw
          exact ⟨rfl, rfl, rfl, rfl, rfl, rfl⟩
        | inst j => simp [hstd] at h
      | some hN =>
        simp only [hfile] at h
        cases hff : fileFlush w hN with
        | none => simp [hff] at h
        | some p1 =>
          obtain ⟨w1, evs1⟩ := p1
          obtain ⟨p1, p2, p3, p4, p5, p6⟩ := fileFlush_preserves w hN w1 evs1 hff
          cases hstd : inst.stdout with
          | origOut =>
            simp only [hff, hstd, Option.bind_eq_bind, Option.some_bind,
              Option.some.injEq, Prod.mk.injEq] at h
            obtain ⟨hw, -⟩ := h
            subst hw
            exact ⟨p1, p2, p3, p4, p5, p6⟩
          | origErr =>
            simp only [hff, hstd, Option.bind_eq_bind, Option.some_bind,
              Option.some.injEq, Prod.mk.injEq] at h
            obtain ⟨hw, -⟩ := h
            subst hw
            exact ⟨p1, p2, p3, p4, p5, p6⟩
          | inst j => simp [hff, hstd] at h
  | succ f ih =>
    intro w id w' evs h
    rw [instFlush] at h
    cases hinst : w.insts[id]? with
    | none => simp [hinst] at h
    | some inst =>
      simp only [hinst, Option.bind_eq_bind, Option.some_bind] at h
      cases hfile : inst.file with
      | none =>
        simp only [hfile] at h
        cases hstd : inst.stdout with
        | origOut =>
          simp only [hstd, Option.bind_eq_bind, Option.some_bind,
            Option.some.injEq, Prod.mk.injEq] at h
          obtain ⟨hw, -⟩ := h
          subst hw
          exact ⟨rfl, rfl, rfl, rfl, rfl, rfl⟩
        | origErr =>
          simp only [hstd, Option.bind_eq_bind, Option.some_bind,
            Option.some.injEq, Prod.mk.injEq] at h
          obtain ⟨hw, -⟩ := h
          subst hw
          exact ⟨rfl, rfl, rfl, rfl, rfl, rfl⟩
        | inst j =>
          simp only [hstd] at h
          cases hrec : instFlush f w j with
          | none => simp [hrec] at h
          | some p1 =>
            obtain ⟨w2, evs2⟩ := p1
            simp only [hrec, Option.bind_eq_bind, Option.some_bind,
              Option.some.injEq, Prod.mk.injEq] at h
            obtain ⟨hw, -⟩ := h
            subst hw
            exact ih w j _ evs2 hrec
      | some hN =>
        simp only [hfile] at h
        cases hff : fileFlush w hN with
        | none => simp [hff] at h
        | some p1 =>
          obtain ⟨w1, evs1⟩ := p1
          obtain ⟨p1, p2, p3, p4, p5, p6⟩ := fileFlush_preserves w hN w1 evs1 hff
          cases hstd : inst.stdout with
          | origOut =>
            simp only [hff, hstd, Option.bind_eq_bind, Option.some_bind,
              Option.some.injEq, Prod.mk.injEq] at h
            obtain ⟨hw, -⟩ := h
            subst hw
            exact ⟨p1, p2, p3, p4, p5, p6⟩
          | origErr =>
            simp only [hff, hstd, Option.bind_eq_bind, Option.some_bind,
              Option.some.injEq, Prod.mk.injEq] at h
            obtain ⟨hw, -⟩ := h
            subst hw
            exact ⟨p1, p2, p3, p4, p5, p6⟩
          | inst j =>
            simp only [hff, hstd, Option.bind_eq_bind, Option.some_bind] at h
            cases hrec : instFlush f w1 j with
            | none => simp [hrec] at h
            | some p7 =>
              obtain ⟨w2, evs2⟩ := p7
              simp only [hrec, Option.bind_eq_bind, Option.some_bind,
                Option.some.injEq, Prod.mk.injEq] at h
              obtain ⟨hw, -⟩ := h
              subst hw
              obtain ⟨q1, q2, q3, q4, q5, q6⟩ := ih w1 j _ evs2 hrec
              exact ⟨q1.trans p1, q2.trans p2, q3.trans p3, q4.trans p4,
                q5.trans p5, q6.trans p6⟩

/-- `__init__` returns, for any arguments, the index of the newly appended
instance: both global targets point at it, the slot is untouched, and the
instance's captured `stdout`/`stderr` are the pre-call global targets
(with no file reference when no file name was given). -/
theorem init_ok_shape (w : World) (f : Option String) (m : FileMode) (sf : Bool)
    (w1 : World) (id : Nat) (evs : List Event)
    (h : «RedirectStdStream.init» w f m sf = .ok (w1, id, evs)) :
    w1.sysStdout = .inst id ∧ w1.sysStderr = .inst id ∧ w1.stream = w.stream ∧
    ∃ file, w1.insts[id]? = some ⟨file, sf, w.sysStdout, w.sysStderr⟩ ∧
      (f = none → file = none) := by
  unfold «RedirectStdStream.init» at h
  cases f with
  | none =>
    simp only [Except.ok.injEq, Prod.mk.injEq] at h
    obtain ⟨hw, hid, -⟩ := h
    subst hw
    subst hid
    exact ⟨rfl, rfl, rfl, none, List.getElem?_concat_length _ _, fun _ => rfl⟩
  | some p =>
    unfold openFile at h
    by_cases hp : p ∈ w.badPaths
    · simp [hp] at h
    · simp only [hp, if_false, ite_false, Except.ok.injEq, Prod.mk.injEq] at h
      obtain ⟨hw, hid, -⟩ := h
      subst hw
      subst hid
      exact ⟨rfl, rfl, rfl, some w.handles.length,
        List.getElem?_concat_length _ _, fun hc => by cases hc⟩

/-- C2: at most one active redirecting stream exists per process — once a
call to `open_redirect_std_stream` has returned an instance, any further
call without an intervening close returns the identical instance and the
identical world, with no events (no file open, no re-capture of
stdout/stderr), whatever filename and mode the second call passes. -/
theorem open_redirect_std_stream_singleton
    (w w1 : World) (f : Option String) (m : FileMode) (id : Nat) (evs : List Event)
    (h : open_redirect_std_stream w f m = .ok (w1, id, evs))
    (f' : Option String) (m' : FileMode) :
    open_redirect_std_stream w1 f' m' = .ok (w1, id, []) := by
  have hs1 : w1.stream = some id := by
    unfold open_redirect_std_stream at h
    cases hs : w.stream with
    | some i =>
      rw [hs] at h
      simp only [Except.ok.injEq, Prod.mk.injEq] at h
      obtain ⟨hw, hid, -⟩ := h
      subst hw
      subst hid
      exact hs
    | none =>
      rw [hs] at h
      cases hinit : «RedirectStdStream.init» w f m true with
      | error e => rw [hinit] at h; cases h
      | ok v =>
        obtain ⟨w2, id2, evs2⟩ := v
        rw [hinit] at h
        simp only [Except.ok.injEq, Prod.mk.injEq] at h
        obtain ⟨hw, hid, -⟩ := h
        subst hw
        subst hid
        rfl
  unfold open_redirect_std_stream
  rw [hs1]

/-- Witness for C2 at a concrete input: opening on a fresh world and then
opening again (with different arguments) returns the same instance and
world, with no events. -/
theorem open_redirect_std_stream_singleton_witness :
    open_redirect_std_stream openW none .append = .ok (openW, 0, []) :=
  open_redirect_std_stream_singleton freshWorld openW (some "log.txt") .write 0
    [.fileOpen "log.txt" .write] rfl none .append

/-- C3: after `open_redirect_std_stream` on a world with no active
instance, both global targets point at the new instance, and the instance
has captured the previously installed stdout and stderr targets. -/
theorem open_installs_new_instance
    (w w1 : World) (f : Option String) (m : FileMode) (id : Nat) (evs : List Event)
    (h0 : w.stream = none)
    (h : open_redirect_std_stream w f m = .ok (w1, id, evs)) :
    w1.sysStdout = .inst id ∧ w1.sysStderr = .inst id ∧
    ∃ inst : Inst, w1.insts[id]? = some inst ∧
      inst.stdout = w.sysStdout ∧ inst.stderr = w.sysStderr := by
  unfold open_redirect_std_stream at h
  rw [h0] at h
  cases hinit : «RedirectStdStream.init» w f m true with
  | error e => rw [hinit] at h; cases h
  | ok v =>
    obtain ⟨w2, id2, evs2⟩ := v
    rw [hinit] at h
    simp only [Except.ok.injEq, Prod.mk.injEq] at h
    obtain ⟨hw, hid, -⟩ := h
    subst hw
    subst hid
    obtain ⟨h1, h2, -, file, h4, -⟩ := init_ok_shape w f m true w2 id2 evs2 hinit
    exact ⟨h1, h2, ⟨file, true, w.sysStdout, w.sysStderr⟩, h4, rfl, rfl⟩

/-- Witness for C3 at a concrete input: opening on the fresh world
installs instance `0` as both targets, and it captured the original
stdout/stderr. -/
theorem open_installs_new_instance_witness :
    openW.sysStdout = .inst 0 ∧ openW.sysStderr = .inst 0 ∧
    ∃ inst : Inst, openW.insts[0]? = some inst ∧
      inst.stdout = freshWorld.sysStdout ∧ inst.stderr = freshWorld.sysStderr :=
  open_installs_new_instance freshWorld openW (some "log.txt") .write 0
    [.fileOpen "log.txt" .write] rfl rfl

/-- C5: writing a zero-length text (a `str`, or a `bytes` that decodes to
the empty string) to the redirecting stream is a no-op: the world is
unchanged (no file write, nothing forwarded) and no event — in particular
no flush — is performed. -/
theorem write_empty_noop (fuel : Nat) (w : World) (id : Nat) (inst : Inst)
    (h0 : w.insts[id]? = some inst) (t : PyText) (hdec : decodePy t = some "") :
    instWrite fuel w id t = some (w, []) := by
  cases fuel <;> (rw [instWrite]; simp [h0, hdec])

/-- Witness for C5 at a concrete input: writing `""` on the freshly opened
stream changes nothing and performs no event. -/
theorem write_empty_noop_witness : instWrite 0 openW 0 (.str "") = some (openW, []) :=
  write_empty_noop 0 openW 0 ⟨some 0, true, .origOut, .origErr⟩ rfl (.str "") rfl

/-- C8: when the singleton slot is empty and the given path cannot be
opened, `open_redirect_std_stream` fails with an I/O error propagated to
the caller, with no retry, no fallback target, and no instance returned
(and the world unchanged). -/
theorem open_badpath_raises (w : World) (p : String) (m : FileMode)
    (h0 : w.stream = none) (hbad : p ∈ w.badPaths) :
    open_redirect_std_stream w (some p) m = .error (w, .ioError) := by
  unfold open_redirect_std_stream «RedirectStdStream.init» openFile
  rw [h0]
  simp [hbad]

/-- Witness for C8 at a concrete input: opening the bad path `"bad"`
errors out. -/
theorem open_badpath_raises_witness :
    open_redirect_std_stream badW (some "bad") .append = .error (badW, .ioError) :=
  open_badpath_raises badW "bad" .append rfl (by decide)

/-- C10: a failing `open_redirect_std_stream` is atomic: the error carries
the world exactly as it was (so `sys.stdout`, `sys.stderr` and the
singleton slot are untouched and the slot remains empty), and a later open
of a good path on that same world succeeds, returning the next instance
index. -/
theorem open_fail_is_atomic (w : World) (p q : String) (m m' : FileMode)
    (h0 : w.stream = none) (hbad : p ∈ w.badPaths) (hq : q ∉ w.badPaths) :
    open_redirect_std_stream w (some p) m = .error (w, .ioError) ∧
    ∃ w2 evs, open_redirect_std_stream w (some q) m' = .ok (w2, w.insts.length, evs) := by
  constructor
  · unfold open_redirect_std_stream «RedirectStdStream.init» openFile
    rw [h0]
    simp [hbad]
  · unfold open_redirect_std_stream «RedirectStdStream.init» openFile
    rw [h0]
    simp only [hbad, hq, if_false, ite_false, if_neg, not_false_iff]
    exact ⟨_, _, rfl⟩

/-- Witness for C10 at a concrete input: open of `"bad"` fails leaving the
world as it was; a retry with `"log.txt"` then succeeds. -/
theorem open_fail_is_atomic_witness :
    open_redirect_std_stream badW (some "bad") .append = .error (badW, .ioError) ∧
    ∃ w2 evs, open_redirect_std_stream badW (some "log.txt") .write =
      .ok (w2, badW.insts.length, evs) :=
  open_fail_is_atomic badW "bad" "log.txt" .append .write rfl (by decide) (by decide)

/-- C9: calling `write` or `flush` on an instance whose file reference has
been cleared (the state `close` leaves it in) raises no error: `flush`
only flushes the captured original stdout, and `write` with non-empty text
forwards it there with no file write — the `None`-file branch is taken in
both operations, and the world is unchanged. -/
theorem write_flush_after_close
    (fuel : Nat) (w : World) (id : Nat) (inst : Inst)
    (h0 : w.insts[id]? = some inst) (hfile : inst.file = none)
    (hstd : inst.stdout = .origOut)
    (t : PyText) (s : String) (hdec : decodePy t = some s) (hne : s ≠ "") :
    instWrite fuel w id t = some (w,
      [.stdWrite .origOut s] ++
        (if inst.should_flush then [.stdFlush .origOut] else [])) ∧
    instFlush fuel w id = some (w, [.stdFlush .origOut]) := by
  have hflush : instFlush fuel w id = some (w, [.stdFlush .origOut]) := by
    cases fuel <;> (rw [instFlush]; simp [h0, hfile, hstd])
  refine ⟨?_, hflush⟩
  cases fuel <;>
  · rw [instWrite]
    simp only [h0, hdec, Option.bind_eq_bind, Option.some_bind]
    rw [if_neg hne]
    simp only [hfile, hstd]
    cases hsf : inst.should_flush with
    | false => simp
    | true => simp [hflush]

/-- Witness for C9 at a concrete input: on the closed instance of
`closedW`, write forwards `"x"` to the original stdout (plus the flush,
since `should_flush` is set) and flush only flushes the original stdout;
the world is unchanged in both cases. -/
theorem write_flush_after_close_witness :
    instWrite 0 closedW 0 (.str "x") =
      some (closedW, [.stdWrite .origOut "x", .stdFlush .origOut]) ∧
    instFlush 0 closedW 0 = some (closedW, [.stdFlush .origOut]) := by
  have h := write_flush_after_close 0 closedW 0 ⟨none, true, .origOut, .origErr⟩
    rfl rfl rfl (.str "x") "x" rfl (by decide)
  exact ⟨h.1.trans (by decide), h.2⟩

/-- C4: for every non-empty text input (a `bytes` input is decoded to text
first) on an instance with an open file whose captured stdout is the
original stdout: the text is appended to the file first, then forwarded to
the captured original stdout, and when flush-after-every-write is enabled
both the file and the captured stdout are immediately flushed (the
buffered text lands in the file system). -/
theorem write_appends_then_forwards
    (fuel : Nat) (w : World) (id hN : Nat) (inst : Inst) (hd : Handle)
    (h0 : w.insts[id]? = some inst) (hf : inst.file = some hN)
    (hh : w.handles[hN]? = some hd) (hop : hd.isOpen = true)
    (hstd : inst.stdout = .origOut)
    (t : PyText) (s : String) (hdec : decodePy t = some s) (hne : s ≠ "") :
    instWrite fuel w id t = some
      (if inst.should_flush then
        ({ w with
            fs := fsSet w.fs hd.path ((fsGet w.fs hd.path).getD "" ++ (hd.buf ++ s)),
            handles := w.handles.set hN { hd with buf := "" } },
          [.fileWrite hN s, .stdWrite .origOut s, .fileFlush hN, .stdFlush .origOut])
      else
        ({ w with handles := w.handles.set hN { hd with buf := hd.buf ++ s } },
          [.fileWrite hN s, .stdWrite .origOut s])) := by
  have hlt : hN < w.handles.length := by
    by_contra hc
    push_neg at hc
    rw [List.getElem?_eq_none hc] at hh
    cases hh
  cases fuel <;>
  · rw [instWrite]
    simp only [h0, hdec, Option.bind_eq_bind, Option.some_bind]
    rw [if_neg hne]
    simp only [hf]
    unfold fileWrite
    simp only [hh, hop, Option.bind_eq_bind, Option.some_bind, if_true]
    simp only [hstd]
    cases hsf : inst.should_flush with
    | false => simp
    | true =>
      rw [instFlush]
      simp only [h0, hf, Option.bind_eq_bind, Option.some_bind]
      unfold fileFlush
      simp only [List.getElem?_set_self hlt, Option.bind_eq_bind, Option.some_bind, hop,
        if_true]
      simp [hstd, List.set_set]

/-- Witness for C4 at a concrete input: writing `"x"` on the freshly
opened stream (flush enabled) appends `"x"` to the buffer, forwards it to
the original stdout, and flushes both, leaving `"x"` in the file. -/
theorem write_appends_then_forwards_witness :
    instWrite 0 openW 0 (.str "x") = some
      (⟨.inst 0, .inst 0, some 0, [⟨some 0, true, .origOut, .origErr⟩],
          [⟨"log.txt", .write, "", true⟩], [("log.txt", "x")], []⟩,
        [.fileWrite 0 "x", .stdWrite .origOut "x", .fileFlush 0, .stdFlush .origOut]) := by
  have h := write_appends_then_forwards 0 openW 0 0 ⟨some 0, true, .origOut, .origErr⟩
    ⟨"log.txt", .write, "", true⟩ rfl rfl rfl rfl rfl (.str "x") "x" rfl (by decide)
  exact h.trans (by decide)

/-- C6: `close` first flushes (the flush's events come first); then it
restores the captured stdout (resp. stderr) only when the global stdout
(resp. stderr) still points at this instance — it never restores streams
it did not itself install — and in every case clears the instance's file
reference, closing the underlying handle; when the file reference is
already clear (as after a first close) the close performs no file event,
so a second close on the same instance is a safe no-op for the file. -/
theorem close_restores_conditionally_and_clears_file
    (fuel : Nat) (w : World) (id : Nat) (inst : Inst)
    (h0 : w.insts[id]? = some inst)
    (wf : World) (evsf : List Event)
    (hfl : instFlush fuel w id = some (wf, evsf))
    (hhandle : ∀ hN, inst.file = some hN → hN < w.handles.length) :
    ∃ w' evs2, instClose fuel w id = some (w', evsf ++ evs2) ∧
      w'.sysStdout = (if w.sysStdout = .inst id then inst.stdout else w.sysStdout) ∧
      w'.sysStderr = (if w.sysStderr = .inst id then inst.stderr else w.sysStderr) ∧
      w'.insts[id]? = some { inst with file := none } ∧
      (inst.file = none → evs2 = []) ∧
      (∀ hN, inst.file = some hN → (w'.handles[hN]?).map Handle.isOpen = some false) := by
  obtain ⟨ps1, ps2, ps3, ps4, ps5, ps6⟩ := instFlush_preserves fuel w id wf evsf hfl
  have hidlt : id < w.insts.length := by
    by_contra hc
    push_neg at hc
    rw [List.getElem?_eq_none hc] at h0
    cases h0
  have hidlt2 : id < wf.insts.length := by rw [ps3]; exact hidlt
  obtain ⟨instf, instsf, instso, instse⟩ := inst
  unfold instClose
  simp only [h0, hfl, Option.bind_eq_bind, Option.some_bind]
  cases hinstf : instf with
  | none =>
    by_cases ho1 : w.sysStdout = Target.inst id <;>
      by_cases ho2 : w.sysStderr = Target.inst id <;>
        simp only [ps1, ps2, ho1, ho2, eq_self_iff_true, if_true, if_false, ite_true,
          ite_false, iff_false, not_false_iff] <;>
      refine ⟨_, [], by rw [List.append_nil], by first | rfl | exact ps1, by first | rfl | exact ps2, by simp [ps3, h0, hinstf], fun _ => rfl,
        fun hN hcc => Option.noConfusion hcc⟩
  | some hN =>
    have hlt : hN < w.handles.length := hhandle hN hinstf
    have hlt2 : hN < wf.handles.length := by rw [ps5]; exact hlt
    cases hhd : wf.handles[hN]? with
    | none => rw [List.getElem?_eq_getElem hlt2] at hhd; cases hhd
    | some hdl =>
      cases hopn : hdl.isOpen with
      | true =>
        by_cases ho1 : w.sysStdout = Target.inst id <;>
          by_cases ho2 : w.sysStderr = Target.inst id <;>
            (unfold fileClose
             simp only [ps1, ps2, ho1, ho2, eq_self_iff_true, if_true, if_false, ite_true,
               ite_false, iff_false, not_false_iff, hhd, hopn, Option.bind_eq_bind,
               Option.some_bind]) <;>
          refine ⟨_, [Event.fileClose hN], rfl, by rfl, by rfl,
            by simp [ps3, List.getElem?_set_self hidlt], fun hcc => Option.noConfusion hcc,
            fun hN' hcc => ?_⟩ <;>
          · injection hcc with he
            subst he
            simp [List.getElem?_set_self hlt2]
      | false =>
        by_cases ho1 : w.sysStdout = Target.inst id <;>
          by_cases ho2 : w.sysStderr = Target.inst id <;>
            (unfold fileClose
             simp only [ps1, ps2, ho1, ho2, eq_self_iff_true, if_true, if_false, ite_true,
               ite_false, iff_false, not_false_iff, hhd, hopn, Option.bind_eq_bind,
               Option.some_bind, Bool.false_eq_true]) <;>
          refine ⟨_, [], by rw [List.append_nil], by rfl, by rfl,
            by simp [ps3, List.getElem?_set_self hidlt], fun hcc => Option.noConfusion hcc,
            fun hN' hcc => ?_⟩ <;>
          · injection hcc with he
            subst he
            simp [hhd, hopn]

/-- Witness for C6 at a concrete input: closing the freshly opened stream
flushes first, restores both targets (they still point at instance `0`),
clears the file reference and closes the handle. -/
theorem close_restores_conditionally_and_clears_file_witness :
    ∃ w' evs2, instClose 1 openW 0 =
        some (w', [Event.fileFlush 0, Event.stdFlush .origOut] ++ evs2) ∧
      w'.sysStdout = (if openW.sysStdout = .inst 0 then Target.origOut else openW.sysStdout) ∧
      w'.sysStderr = (if openW.sysStderr = .inst 0 then Target.origErr else openW.sysStderr) ∧
      w'.insts[0]? = some ⟨none, true, .origOut, .origErr⟩ ∧
      ((some 0 : Option Nat) = none → evs2 = []) ∧
      (∀ hN, (some 0 : Option Nat) = some hN →
        (w'.handles[hN]?).map Handle.isOpen = some false) :=
  close_restores_conditionally_and_clears_file 1 openW 0
    ⟨some 0, true, .origOut, .origErr⟩ rfl
    openW [Event.fileFlush 0, Event.stdFlush .origOut] (by decide)
    (fun hN hh => by injection hh with he; subst he; decide)

/-- C7: the spec's round trip over a fresh file — open in write mode,
write `"a"`, write `"b"`, close — leaves the file containing exactly
`"ab"`. -/
theorem roundTrip_writes_ab : roundTripFile = some "ab" := by decide

/-- C1: the scoped wrapper `redirect_stds` runs the process-wide close
only on normal completion of the block.  When the block raises, the close
is skipped: the singleton slot is still filled, the instance is still
installed as both global targets, and its file handle is still open —
while a normally exiting block does get the full close. -/
theorem redirect_stds_skips_close_on_exception :
    runRedirect .exn = some (.ok (openW, .exn)) ∧
    openW.stream = some 0 ∧ openW.sysStdout = .inst 0 ∧ openW.sysStderr = .inst 0 ∧
    (openW.handles[0]?).map Handle.isOpen = some true ∧
    runRedirect .normal = some (.ok (closedW, .normal)) ∧
    closedW.stream = none ∧ closedW.sysStdout = .origOut ∧ closedW.sysStderr = .origErr := by
  refine ⟨by decide, rfl, rfl, rfl, rfl, by decide, rfl, rfl, rfl⟩

end Stutil
